import Mathlib

/-!
# Task service of `todo-app/backend/main.go`

A shallow embedding of the route handlers registered in `main` and of the
collaborators they call (the JSON binder, `strconv.Atoi`, the pooled store),
followed by the properties of the CRUD contract.

Each handler is a function from the request and the store to a `Result`:
the response that `c.JSON` writes, the store after the call, and the
effects (store statements, log writes) performed on the way, in order.
In the source every `c.JSON` call is the last action of its path, so all
recorded effects precede the response.
-/

set_option autoImplicit false

namespace TodoApp

/-! ## Data model -/

/-- Task record, `type Task struct` (main.go lines 20-24). Go `int` is 64-bit. -/
structure Task where
  ID : Int
  Title : String
  Completed : Bool
deriving DecidableEq, Repr

/-- Go value of type `[]Task`. A nil slice and an empty slice are different
values: `json.Marshal` writes `null` for the former and `[]` for the latter. -/
inductive TaskSlice where
  | nil
  | elems (ts : List Task)
deriving DecidableEq, Repr

/-- Go `append(tasks, t)`: appending to a nil slice gives a non-nil one. -/
def TaskSlice.append : TaskSlice → Task → TaskSlice
  | .nil, t => .elems [t]
  | .elems ts, t => .elems (ts ++ [t])

/-! ## HTTP constants and response bodies -/

abbrev StatusOK : Nat := 200
abbrev StatusCreated : Nat := 201
abbrev StatusBadRequest : Nat := 400
abbrev StatusNotFound : Nat := 404
abbrev StatusInternalServerError : Nat := 500

/-- The values handed to `c.JSON` in the handlers. -/
inductive RespBody where
  /-- Body `gin.H{"error": msg}` -/
  | error (msg : String)
  /-- Body `gin.H{"message": msg}` -/
  | message (msg : String)
  /-- Body `gin.H{"tasks": tasks}` -/
  | tasks (ts : TaskSlice)
  /-- A `Task` value, as in `c.JSON(http.StatusCreated, newTask)` -/
  | task (t : Task)
deriving DecidableEq, Repr

/-! ## Request decoding -/

/-- JSON value found under a key of the request object. -/
inductive JSON where
  | null
  | bool (b : Bool)
  /-- A number written as an integer literal -/
  | num (n : Int)
  | str (s : String)
  /-- Any other value (a non-integer number, an array, an object), with the
  description the decoder uses for it in its error message -/
  | other (desc : String)
deriving DecidableEq, Repr

/-- Request body as the JSON decoder sees it. -/
inductive Body where
  /-- Not a JSON text (this includes the empty body); `err` is the decoder's error -/
  | malformed (err : String)
  /-- The JSON text `null` -/
  | null
  /-- A JSON object, keys in the order written -/
  | object (fields : List (String × JSON))
  /-- A JSON text that is neither an object nor `null` -/
  | nonObject (desc : String)
deriving DecidableEq, Repr

/-- Key lookup of `encoding/json`: a key selects the struct field whose JSON
name it equals up to letter case. (The two non-ASCII foldings of Go, to `k` and
to `s`, cannot occur in `id`, `title`, `completed`.) -/
def keyMatches (key field : String) : Bool :=
  key.data.map Char.toLower == field.data

def minInt : Int := -(2 ^ 63)
def maxInt : Int := 2 ^ 63 - 1

def typeError (desc field ty : String) : String :=
  "json: cannot unmarshal " ++ desc ++ " into Go struct field Task." ++ field ++ " of type " ++ ty

/-- Decoding of one `key: value` pair into the `Task` being filled. A `null`
leaves the field as it is, an unknown key is skipped, a value of the wrong JSON
type is an error. -/
def bindField (t : Task) (key : String) (v : JSON) : Except String Task :=
  if keyMatches key "id" then
    match v with
    | .null => .ok t
    | .num n =>
      if minInt ≤ n ∧ n ≤ maxInt then .ok { t with ID := n }
      else .error (typeError "number" "id" "int")
    | .bool _ => .error (typeError "bool" "id" "int")
    | .str _ => .error (typeError "string" "id" "int")
    | .other d => .error (typeError d "id" "int")
  else if keyMatches key "title" then
    match v with
    | .null => .ok t
    | .str s => .ok { t with Title := s }
    | .bool _ => .error (typeError "bool" "title" "string")
    | .num _ => .error (typeError "number" "title" "string")
    | .other d => .error (typeError d "title" "string")
  else if keyMatches key "completed" then
    match v with
    | .null => .ok t
    | .bool b => .ok { t with Completed := b }
    | .num _ => .error (typeError "number" "completed" "bool")
    | .str _ => .error (typeError "string" "completed" "bool")
    | .other d => .error (typeError d "completed" "bool")
  else .ok t

/-- Decoding of the fields of an object, left to right (a repeated key
overwrites). -/
def bindFields : List (String × JSON) → Task → Except String Task
  | [], t => .ok t
  | (k, v) :: rest, t =>
    match bindField t k v with
    | .error e => .error e
    | .ok t' => bindFields rest t'

/-- Model of `c.ShouldBindJSON(&task)` for `var task Task` (main.go lines 105
and 154): the struct starts from its zero value, `Task{0, "", false}`; the
struct carries no `binding` tag, so nothing is validated after decoding.
The texts of the decoder's messages are indicative. -/
def ShouldBindJSON : Body → Except String Task
  | .malformed err => .error err
  | .null => .ok ⟨0, "", false⟩
  | .object fields => bindFields fields ⟨0, "", false⟩
  | .nonObject desc => .error ("json: cannot unmarshal " ++ desc ++ " into Go value of type main.Task")

/-- Value of a decimal digit, `none` for any other character. -/
def digitVal (c : Char) : Option Nat :=
  if 48 ≤ c.toNat ∧ c.toNat ≤ 57 then some (c.toNat - 48) else none

/-- Value of a non-empty run of decimal digits read left to right. -/
def parseDigits : List Char → Nat → Option Nat
  | [], acc => some acc
  | c :: cs, acc =>
    match digitVal c with
    | none => none
    | some d => parseDigits cs (acc * 10 + d)

/-- Magnitude of an unsigned decimal numeral; the empty numeral is an error. -/
def parseMagnitude (cs : List Char) : Option Nat :=
  if cs = [] then none else parseDigits cs 0

/-- Model of `strconv.Atoi` (main.go lines 124 and 147): an optional sign and
then one or more decimal digits, the value within the 64-bit `int` range;
`none` stands for a non-nil `err`. -/
def Atoi (s : String) : Option Int :=
  match s.data with
  | [] => none
  | c :: cs =>
    if c = '-' then
      match parseMagnitude cs with
      | none => none
      | some n => if -(n : Int) < minInt then none else some (-(n : Int))
    else if c = '+' then
      match parseMagnitude cs with
      | none => none
      | some n => if maxInt < (n : Int) then none else some (n : Int)
    else
      match parseMagnitude (c :: cs) with
      | none => none
      | some n => if maxInt < (n : Int) then none else some (n : Int)

/-! ## The store -/

/-- Modelled from the spec: the table `tasks(id PK auto-increment, title text,
completed boolean)` of section 6; its schema is not part of the source.
`rows` is the table in scan order, `nextId` the next value of the sequence
behind the auto-increment key. -/
structure Store where
  rows : List Task
  nextId : Int
deriving DecidableEq, Repr

/-- The SQL statements the handlers send, with their arguments. -/
inductive Stmt where
  /-- Statement `SELECT id, title, completed FROM tasks` -/
  | selectTasks
  /-- Statement `INSERT INTO tasks (title, completed) VALUES ($1, $2) RETURNING id` -/
  | insertTask (title : String) (completed : Bool)
  /-- Statement `DELETE FROM tasks WHERE id=$1` -/
  | deleteTask (id : Int)
  /-- Statement `UPDATE tasks SET completed=$1 WHERE id=$2` -/
  | updateCompleted (completed : Bool) (id : Int)
  /-- Statement `SELECT * FROM non_existing_table` -/
  | selectNonExisting
deriving DecidableEq, Repr

/-- Result set of `pool.Query` (`pgx.Rows`). Each item is what one round of
`rows.Next()` / `rows.Scan(...)` yields: the scanned row or the error of `Scan`.
After the last item `rows.Next()` returns false, either because the rows are
exhausted (`err = none`) or because reading broke off, in which case the error
is available from `rows.Err()` only. -/
structure Rows where
  items : List (Except String Task)
  err : Option String

/-- What the environment does to a `pool.Query` call. -/
inductive QueryFault where
  /-- The statement runs to completion -/
  | none
  /-- The call `pool.Query` itself returns the error `m` -/
  | queryErr (m : String)
  /-- The call `rows.Scan` fails with `m` on the row after the first `k` (no
  effect when the table has no such row) -/
  | scanErr (k : Nat) (m : String)
  /-- Reading breaks off with `m` after `k` rows: `rows.Next()` returns false
  and `m` is what `rows.Err()` would return -/
  | readErr (k : Nat) (m : String)
deriving DecidableEq, Repr

/-- Modelled from the spec: `pool.Query` for the select of all tasks. -/
def Store.query (s : Store) : QueryFault → Except String Rows
  | .none => .ok ⟨s.rows.map .ok, none⟩
  | .queryErr m => .error m
  | .scanErr k m =>
    if k < s.rows.length then .ok ⟨(s.rows.take k).map .ok ++ [.error m], none⟩
    else .ok ⟨s.rows.map .ok, none⟩
  | .readErr k m => .ok ⟨(s.rows.take k).map .ok, some m⟩

def pkeyViolation : String :=
  "ERROR: duplicate key value violates unique constraint \"tasks_pkey\" (SQLSTATE 23505)"

/-- Modelled from the spec: the insert of a row with a store-assigned id
(`QueryRow(...).Scan(&newTask.ID)`). `fault = some m` is a failure of the
statement for a reason outside the table (connection, permission, ...), which
leaves the store as it was. Otherwise the sequence hands out `nextId`; the
primary key rejects the row when that id is taken (the sequence value stays
consumed), else the row is appended and its id returned. -/
def Store.insert (s : Store) (fault : Option String) (title : String) (completed : Bool) :
    Except String Int × Store :=
  match fault with
  | some m => (.error m, s)
  | none =>
    if s.rows.any (fun t => t.ID == s.nextId) then
      (.error pkeyViolation, { s with nextId := s.nextId + 1 })
    else
      (.ok s.nextId, ⟨s.rows ++ [⟨s.nextId, title, completed⟩], s.nextId + 1⟩)

/-- Modelled from the spec: `pool.Exec` of the delete; the number returned is
`cmdTag.RowsAffected()`. -/
def Store.delete (s : Store) (fault : Option String) (id : Int) : Except String Nat × Store :=
  match fault with
  | some m => (.error m, s)
  | none =>
    (.ok (s.rows.filter (fun t => t.ID == id)).length,
      { s with rows := s.rows.filter (fun t => !(t.ID == id)) })

/-- Modelled from the spec: `pool.Exec` of the update of `completed`; the
number returned is `cmdTag.RowsAffected()`. -/
def Store.update (s : Store) (fault : Option String) (completed : Bool) (id : Int) :
    Except String Nat × Store :=
  match fault with
  | some m => (.error m, s)
  | none =>
    (.ok (s.rows.filter (fun t => t.ID == id)).length,
      { s with rows := s.rows.map (fun t => if t.ID = id then { t with Completed := completed } else t) })

def undefinedTable : String :=
  "ERROR: relation \"non_existing_table\" does not exist (SQLSTATE 42P01)"

/-- Modelled from the spec: `pool.Exec` of a select on a table the schema does
not have; it fails whether or not the environment adds a fault of its own. -/
def Store.selectNonExisting (_s : Store) (fault : Option String) : Except String Nat :=
  match fault with
  | some m => .error m
  | none => .error undefinedTable

/-! ## Handlers -/

/-- Observable action of a handler other than the response. -/
inductive Effect where
  /-- A line written with `log.Println` -/
  | log (line : String)
  /-- A statement sent to the store -/
  | stmt (q : Stmt)
deriving DecidableEq, Repr

/-- Outcome of one request: the response written by `c.JSON`, the store
afterwards, and the effects performed before the response, in order. -/
structure Result where
  status : Nat
  body : RespBody
  store : Store
  effects : List Effect
deriving DecidableEq, Repr

/-- The loop `for rows.Next() { ...; rows.Scan(...); tasks = append(tasks, t) }`
of the list handler (main.go lines 86-93): a `Scan` error leaves the loop with
that error. -/
def scanLoop : List (Except String Task) → TaskSlice → Except String TaskSlice
  | [], tasks => .ok tasks
  | .error m :: _, _ => .error m
  | .ok t :: rest, tasks => scanLoop rest (tasks.append t)

/-- Handler of `GET /tasks` (main.go lines 77-100). `rows.Err()` is not consulted. -/
def getTasksHandler (f : QueryFault) (s : Store) : Result :=
  match s.query f with
  | .error m => ⟨StatusInternalServerError, .error m, s, [.stmt .selectTasks]⟩
  | .ok rows =>
    match scanLoop rows.items .nil with
    | .error m => ⟨StatusInternalServerError, .error m, s, [.stmt .selectTasks]⟩
    | .ok tasks =>
      let tasks := if tasks = .nil then .elems [] else tasks
      ⟨StatusOK, .tasks tasks, s, [.stmt .selectTasks]⟩

/-- Handler of `POST /tasks` (main.go lines 103-119). -/
def createTaskHandler (f : Option String) (s : Store) (body : Body) : Result :=
  match ShouldBindJSON body with
  | .error e => ⟨StatusBadRequest, .error e, s, []⟩
  | .ok newTask =>
    match s.insert f newTask.Title newTask.Completed with
    | (.error m, s') =>
      ⟨StatusInternalServerError, .error m, s', [.stmt (.insertTask newTask.Title newTask.Completed)]⟩
    | (.ok id, s') =>
      ⟨StatusCreated, .task { newTask with ID := id }, s',
        [.stmt (.insertTask newTask.Title newTask.Completed)]⟩

/-- Handler of `DELETE /tasks/:id` (main.go lines 122-142). -/
def deleteTaskHandler (f : Option String) (s : Store) (idStr : String) : Result :=
  match Atoi idStr with
  | none => ⟨StatusBadRequest, .error "Invalid task ID", s, []⟩
  | some id =>
    match s.delete f id with
    | (.error m, s') => ⟨StatusInternalServerError, .error m, s', [.stmt (.deleteTask id)]⟩
    | (.ok rowsAffected, s') =>
      if rowsAffected = 0 then
        ⟨StatusNotFound, .error "Task not found", s', [.stmt (.deleteTask id)]⟩
      else
        ⟨StatusOK, .message "Task deleted", s', [.stmt (.deleteTask id)]⟩

/-- Handler of `PATCH /tasks/:id` (main.go lines 145-173). -/
def updateTaskHandler (f : Option String) (s : Store) (idStr : String) (body : Body) : Result :=
  match Atoi idStr with
  | none => ⟨StatusBadRequest, .error "Invalid task ID", s, []⟩
  | some id =>
    match ShouldBindJSON body with
    | .error e => ⟨StatusBadRequest, .error e, s, []⟩
    | .ok task =>
      match s.update f task.Completed id with
      | (.error m, s') =>
        ⟨StatusInternalServerError, .error m, s', [.stmt (.updateCompleted task.Completed id)]⟩
      | (.ok rowsAffected, s') =>
        if rowsAffected = 0 then
          ⟨StatusNotFound, .error "Task not found", s', [.stmt (.updateCompleted task.Completed id)]⟩
        else
          ⟨StatusOK, .message "Task updated", s', [.stmt (.updateCompleted task.Completed id)]⟩

/-- Handler of `GET /db-error` (main.go lines 66-74). -/
def dbErrorHandler (f : Option String) (s : Store) : Result :=
  match s.selectNonExisting f with
  | .error m =>
    ⟨StatusInternalServerError, .error m, s,
      [.stmt .selectNonExisting, .log ("DB query failed: " ++ m)]⟩
  | .ok _ => ⟨StatusOK, .message "This should not happen", s, [.stmt .selectNonExisting]⟩

/-- Handler of `GET /error-test` (main.go lines 58-63): it writes the log line
and answers 500 without touching the store. -/
def errorTestHandler (s : Store) : Result :=
  ⟨StatusInternalServerError, .error "Simulated internal error for Datadog test", s,
    [.log "Simulating server error..."]⟩

/-- Character of a decimal digit. -/
def digitChar (d : Nat) : Char := Char.ofNat (48 + d)

/-- Decimal numeral of a natural number, most significant digit first. -/
def decimalNat (n : Nat) : List Char :=
  if n = 0 then ['0'] else (Nat.digits 10 n).reverse.map digitChar

/-- Decimal numeral of an integer, as it appears in a request path. -/
def decimal (i : Int) : String :=
  if i < 0 then ⟨'-' :: decimalNat i.natAbs⟩ else ⟨decimalNat i.natAbs⟩

/-- The lines a handler wrote to the log, in order. -/
def logLines : List Effect → List String
  | [] => []
  | .log line :: rest => line :: logLines rest
  | .stmt _ :: rest => logLines rest

/-- Store with the tasks 1 and 2, used to instantiate the theorems below. -/
def twoTasks : Store := ⟨[⟨1, "a", false⟩, ⟨2, "b", true⟩], 3⟩

/-! ## The scenario of section 8 of the specification

Each request runs on the store left by the one before. -/

/-- Empty table whose sequence starts at 1. -/
def emptyStore : Store := ⟨[], 1⟩

/-- Step 1: POST /tasks with `{"title":"buy milk","completed":false}`. -/
def scenarioPost : Result :=
  createTaskHandler none emptyStore
    (.object [("title", .str "buy milk"), ("completed", .bool false)])

/-- Step 2: PATCH /tasks/1 with `{"completed":true}`. -/
def scenarioPatch : Result :=
  updateTaskHandler none scenarioPost.store "1" (.object [("completed", .bool true)])

/-- Step 3: DELETE /tasks/1. -/
def scenarioDelete : Result :=
  deleteTaskHandler none scenarioPatch.store "1"

/-- Step 4: DELETE /tasks/1 once more. -/
def scenarioDeleteAgain : Result :=
  deleteTaskHandler none scenarioDelete.store "1"

/-! ## Auxiliary facts about the list handler -/

theorem scanLoop_elems (l ts : List Task) :
    scanLoop (l.map Except.ok) (.elems ts) = .ok (.elems (ts ++ l)) := by
  induction l generalizing ts with
  | nil => simp [scanLoop]
  | cons t rest ih => simp [scanLoop, TaskSlice.append, ih]

theorem scanLoop_nil (l : List Task) :
    scanLoop (l.map Except.ok) .nil = .ok (if l = [] then .nil else .elems l) := by
  cases l with
  | nil => simp [scanLoop]
  | cons t rest => simp [scanLoop, TaskSlice.append, scanLoop_elems]

/-- When the query runs to completion the list handler answers 200 with all
rows of the table, as a non-nil slice. -/
theorem getTasksHandler_none (s : Store) :
    getTasksHandler .none s = ⟨StatusOK, .tasks (.elems s.rows), s, [.stmt .selectTasks]⟩ := by
  simp only [getTasksHandler, Store.query, scanLoop_nil]
  by_cases h : s.rows = [] <;> simp [h]

/-- The scan loop never ends with an error-free nil slice being reported: what
the handler sends after the nil check is a non-nil slice. -/
theorem nilCheck_ne_nil (tasks : TaskSlice) :
    (if tasks = TaskSlice.nil then TaskSlice.elems [] else tasks) ≠ TaskSlice.nil := by
  cases tasks <;> simp

/-! ## Path identifiers: every 64-bit integer is reachable -/

theorem digitVal_digitChar (d : Nat) (hd : d < 10) : digitVal (digitChar d) = some d := by
  interval_cases d <;> rfl

theorem digitChar_ne_sign (d : Nat) (hd : d < 10) : digitChar d ≠ '-' ∧ digitChar d ≠ '+' := by
  interval_cases d <;> decide

theorem parseDigits_map (l : List Nat) (acc : Nat) (hl : ∀ d ∈ l, d < 10) :
    parseDigits (l.map digitChar) acc = some (l.foldl (fun a d => a * 10 + d) acc) := by
  induction l generalizing acc with
  | nil => rfl
  | cons d rest ih =>
    have hd := hl d (List.mem_cons_self _ _)
    simp only [List.map_cons, parseDigits, digitVal_digitChar d hd, List.foldl_cons]
    exact ih _ (fun e he => hl e (List.mem_cons_of_mem _ he))

theorem foldl_digits (n : Nat) :
    (Nat.digits 10 n).reverse.foldl (fun a d => a * 10 + d) 0 = n := by
  rw [List.foldl_reverse]
  have h := Nat.ofDigits_digits 10 n
  rw [Nat.ofDigits_eq_foldr] at h
  have hf : (fun (x y : Nat) => y * 10 + x) = (fun (x y : Nat) => x + 10 * y) := by
    funext x y
    omega
  rw [hf]
  simpa using h

theorem parseMagnitude_decimalNat (n : Nat) : parseMagnitude (decimalNat n) = some n := by
  unfold decimalNat
  split
  · subst n; rfl
  · rename_i hn
    have hne : (Nat.digits 10 n).reverse.map digitChar ≠ [] := by
      simp [Nat.digits_ne_nil_iff_ne_zero, hn]
    unfold parseMagnitude
    rw [if_neg hne, parseDigits_map _ _ (fun d hd => Nat.digits_lt_base (by norm_num) (List.mem_reverse.mp hd)),
      foldl_digits]


theorem decimalNat_head (n : Nat) :
    ∃ (d : Nat) (cs : List Char), d < 10 ∧ decimalNat n = digitChar d :: cs := by
  unfold decimalNat
  split
  · exact ⟨0, [], by norm_num, rfl⟩
  · rename_i hn
    cases hrev : (Nat.digits 10 n).reverse with
    | nil =>
      exfalso
      have : Nat.digits 10 n = [] := by simpa using hrev
      exact hn (Nat.digits_eq_nil_iff_eq_zero.mp this)
    | cons d rest =>
      refine ⟨d, rest.map digitChar, ?_, by simp⟩
      apply Nat.digits_lt_base (b := 10) (m := n) (by norm_num)
      rw [← List.mem_reverse, hrev]
      exact List.mem_cons_self _ _

/-- Every integer of the 64-bit range is the value of a path identifier: `Atoi`
reads its decimal numeral back. -/
theorem Atoi_decimal (i : Int) (hlo : minInt ≤ i) (hhi : i ≤ maxInt) :
    Atoi (decimal i) = some i := by
  unfold decimal
  split
  · rename_i hneg
    have habs : -(i.natAbs : Int) = i := by omega
    simp only [Atoi, if_true, parseMagnitude_decimalNat, habs]
    rw [if_neg (by omega)]
  · rename_i hnn
    have habs : (i.natAbs : Int) = i := by omega
    obtain ⟨d, cs, hd, hcs⟩ := decimalNat_head i.natAbs
    have hpm := parseMagnitude_decimalNat i.natAbs
    rw [hcs] at hpm
    obtain ⟨h1, h2⟩ := digitChar_ne_sign d hd
    simp only [Atoi, hcs, if_neg h1, if_neg h2, hpm, habs]
    rw [if_neg (by omega)]

/-! ## The CRUD contract -/

/-- C1. For every store state and every body that binds to a payload (whatever
id the payload carries), when the insert succeeds with the id `id`, POST /tasks
answers 201 with the Task made of that id and the payload's title and
completed; the id is the one the store assigned and is the id of no task that
was in the store before; a list issued right afterwards answers 200 with the
tasks that were there before followed by exactly that Task. -/
theorem create_returns_fresh_task (f : Option String) (s s' : Store) (body : Body)
    (payload : Task) (id : Int)
    (hbind : ShouldBindJSON body = .ok payload)
    (hins : s.insert f payload.Title payload.Completed = (.ok id, s')) :
    createTaskHandler f s body =
        ⟨StatusCreated, .task ⟨id, payload.Title, payload.Completed⟩, s',
          [.stmt (.insertTask payload.Title payload.Completed)]⟩ ∧
      id = s.nextId ∧
      (∀ t ∈ s.rows, t.ID ≠ id) ∧
      getTasksHandler .none (createTaskHandler f s body).store =
        ⟨StatusOK, .tasks (.elems (s.rows ++ [⟨id, payload.Title, payload.Completed⟩])),
          s', [.stmt .selectTasks]⟩ := by
  have hr : createTaskHandler f s body =
      ⟨StatusCreated, .task ⟨id, payload.Title, payload.Completed⟩, s',
        [.stmt (.insertTask payload.Title payload.Completed)]⟩ := by
    simp [createTaskHandler, hbind, hins]
  refine ⟨hr, ?_⟩
  rw [hr, getTasksHandler_none]
  cases f with
  | some m => simp [Store.insert] at hins
  | none =>
    simp only [Store.insert] at hins
    split at hins
    · simp at hins
    · rename_i hfree
      simp only [Prod.mk.injEq, Except.ok.injEq] at hins
      obtain ⟨hid, hs⟩ := hins
      subst hid
      subst hs
      refine ⟨rfl, ?_, rfl⟩
      intro t ht heq
      apply hfree
      simp only [List.any_eq_true, beq_iff_eq]
      exact ⟨t, ht, heq⟩

/-- Witness of C1: an insert into a store holding task 1, with the sequence at 2,
for a payload that carries the id 99. -/
theorem create_returns_fresh_task_witness :
    createTaskHandler none ⟨[⟨1, "a", true⟩], 2⟩
        (.object [("id", .num 99), ("title", .str "b"), ("completed", .bool false)]) =
        ⟨StatusCreated, .task ⟨2, "b", false⟩, ⟨[⟨1, "a", true⟩, ⟨2, "b", false⟩], 3⟩,
          [.stmt (.insertTask "b" false)]⟩ ∧
      (2 : Int) = (Store.mk [⟨1, "a", true⟩] 2).nextId ∧
      (∀ t ∈ (Store.mk [⟨1, "a", true⟩] 2).rows, t.ID ≠ 2) ∧
      getTasksHandler .none (createTaskHandler none ⟨[⟨1, "a", true⟩], 2⟩
          (.object [("id", .num 99), ("title", .str "b"), ("completed", .bool false)])).store =
        ⟨StatusOK, .tasks (.elems ([⟨1, "a", true⟩] ++ [⟨2, "b", false⟩])),
          ⟨[⟨1, "a", true⟩, ⟨2, "b", false⟩], 3⟩, [.stmt .selectTasks]⟩ :=
  create_returns_fresh_task none ⟨[⟨1, "a", true⟩], 2⟩ ⟨[⟨1, "a", true⟩, ⟨2, "b", false⟩], 3⟩
    (.object [("id", .num 99), ("title", .str "b"), ("completed", .bool false)])
    ⟨99, "b", false⟩ 2 rfl rfl

theorem filter_id_length_eq_zero (rows : List Task) (id : Int) :
    (rows.filter (fun t => t.ID == id)).length = 0 ↔ ∀ t ∈ rows, t.ID ≠ id := by
  simp [List.filter_eq_nil_iff]

theorem filter_other_eq_self (rows : List Task) (id : Int) (h : ∀ t ∈ rows, t.ID ≠ id) :
    rows.filter (fun t => !(t.ID == id)) = rows := by
  rw [List.filter_eq_self]
  intro t ht
  simp [h t ht]

theorem filter_other_eq (rows : List Task) (id : Int) :
    rows.filter (fun t => !(t.ID == id)) = rows.filter (fun t => decide (t.ID ≠ id)) := by
  congr 1
  funext t
  by_cases h : t.ID = id <;> simp [h]

/-- C2. For every store state and every path identifier that parses as the
integer `id`, with the store working: if no task has that id, DELETE
/tasks/{id} answers 404 "Task not found" and the store is unchanged; if a task
has that id, it answers 200 "Task deleted", and a list issued afterwards
answers 200 with no task of that id and with every other task as before (the
former rows without those of that id, in the same order). -/
theorem delete_contract (s : Store) (idStr : String) (id : Int)
    (hid : Atoi idStr = some id) :
    ((∀ t ∈ s.rows, t.ID ≠ id) →
        deleteTaskHandler none s idStr =
          ⟨StatusNotFound, .error "Task not found", s, [.stmt (.deleteTask id)]⟩) ∧
    ((∃ t ∈ s.rows, t.ID = id) →
        (deleteTaskHandler none s idStr).status = StatusOK ∧
        (deleteTaskHandler none s idStr).body = .message "Task deleted" ∧
        ∃ listed : List Task,
          getTasksHandler .none (deleteTaskHandler none s idStr).store =
            ⟨StatusOK, .tasks (.elems listed), (deleteTaskHandler none s idStr).store,
              [.stmt .selectTasks]⟩ ∧
          (∀ t ∈ listed, t.ID ≠ id) ∧
          listed = s.rows.filter (fun t => decide (t.ID ≠ id))) := by
  constructor
  · intro hnone
    have h0 := (filter_id_length_eq_zero s.rows id).mpr hnone
    simp [deleteTaskHandler, hid, Store.delete, h0, filter_other_eq_self s.rows id hnone]
  · intro hex
    have h0 : (s.rows.filter (fun t => t.ID == id)).length ≠ 0 := by
      intro h
      obtain ⟨t, ht, hteq⟩ := hex
      exact (filter_id_length_eq_zero s.rows id).mp h t ht hteq
    have hr : deleteTaskHandler none s idStr =
        ⟨StatusOK, .message "Task deleted",
          { s with rows := s.rows.filter (fun t => !(t.ID == id)) }, [.stmt (.deleteTask id)]⟩ := by
      simp [deleteTaskHandler, hid, Store.delete, h0]
    rw [hr]
    refine ⟨rfl, rfl, s.rows.filter (fun t => decide (t.ID ≠ id)), ?_, ?_, rfl⟩
    · rw [getTasksHandler_none, filter_other_eq]
    · intro t ht
      simpa using (List.mem_filter.mp ht).2

/-- Witness of C2: on the store with tasks 1 and 2, deleting 7 is a 404 that
leaves the store alone and deleting 1 is a 200 after which only task 2 is
listed. -/
theorem delete_contract_witness :
    deleteTaskHandler none twoTasks "7" =
        ⟨StatusNotFound, .error "Task not found", twoTasks, [.stmt (.deleteTask 7)]⟩ ∧
      (deleteTaskHandler none twoTasks "1").status = StatusOK ∧
      (deleteTaskHandler none twoTasks "1").body = .message "Task deleted" ∧
      ∃ listed : List Task,
        getTasksHandler .none (deleteTaskHandler none twoTasks "1").store =
          ⟨StatusOK, .tasks (.elems listed), (deleteTaskHandler none twoTasks "1").store,
            [.stmt .selectTasks]⟩ ∧
        (∀ t ∈ listed, t.ID ≠ 1) ∧
        listed = twoTasks.rows.filter (fun t => decide (t.ID ≠ 1)) :=
  ⟨(delete_contract twoTasks "7" 7 rfl).1 (by decide),
    (delete_contract twoTasks "1" 1 rfl).2 ⟨⟨1, "a", false⟩, by decide, rfl⟩⟩

/-- C3. For every store state, every path identifier that parses as the id of
an existing task and every body that binds to a payload, with the store
working, PATCH /tasks/{id} answers 200 "Task updated"; afterwards the table is
the former one where each task of that id keeps its id and title and has the
payload's completed, and every other task is as it was. The payload's title
and id play no part. -/
theorem update_changes_only_completed (s : Store) (idStr : String) (id : Int) (body : Body)
    (payload : Task)
    (hid : Atoi idStr = some id)
    (hbind : ShouldBindJSON body = .ok payload)
    (hex : ∃ t ∈ s.rows, t.ID = id) :
    updateTaskHandler none s idStr body =
        ⟨StatusOK, .message "Task updated",
          ⟨s.rows.map (fun t => if t.ID = id then ⟨t.ID, t.Title, payload.Completed⟩ else t),
            s.nextId⟩,
          [.stmt (.updateCompleted payload.Completed id)]⟩ := by
  have h0 : (s.rows.filter (fun t => t.ID == id)).length ≠ 0 := by
    intro h
    obtain ⟨t, ht, hteq⟩ := hex
    exact (filter_id_length_eq_zero s.rows id).mp h t ht hteq
  simp [updateTaskHandler, hid, hbind, Store.update, h0]

/-- Witness of C3: on the store with tasks 1 and 2, a PATCH of task 1 whose
body also carries another title sets completed and leaves both titles. -/
theorem update_changes_only_completed_witness :
    updateTaskHandler none twoTasks "1"
        (.object [("title", .str "other"), ("completed", .bool true)]) =
      ⟨StatusOK, .message "Task updated",
        ⟨twoTasks.rows.map (fun t => if t.ID = 1 then ⟨t.ID, t.Title, true⟩ else t),
          twoTasks.nextId⟩,
        [.stmt (.updateCompleted true 1)]⟩ :=
  update_changes_only_completed twoTasks "1" 1
    (.object [("title", .str "other"), ("completed", .bool true)]) ⟨0, "other", true⟩
    rfl rfl ⟨⟨1, "a", false⟩, by decide, rfl⟩

/-- C4. For every path identifier on which `strconv.Atoi` fails, DELETE
/tasks/{id} and PATCH /tasks/{id} answer 400 "Invalid task ID" whatever the
state of the store, its readiness to fail and (for PATCH) the request body;
no statement is sent to the store (the effects are empty) and the store is
unchanged. -/
theorem invalid_id_rejected (idStr : String) (hid : Atoi idStr = none) :
    (∀ (f : Option String) (s : Store),
        deleteTaskHandler f s idStr =
          ⟨StatusBadRequest, .error "Invalid task ID", s, []⟩) ∧
    (∀ (f : Option String) (s : Store) (body : Body),
        updateTaskHandler f s idStr body =
          ⟨StatusBadRequest, .error "Invalid task ID", s, []⟩) := by
  constructor
  · intro f s
    simp [deleteTaskHandler, hid]
  · intro f s body
    simp [updateTaskHandler, hid]

/-- Witness of C4 at the path identifier abc. -/
theorem invalid_id_rejected_witness :
    Atoi "abc" = none ∧
    (∀ (f : Option String) (s : Store),
        deleteTaskHandler f s "abc" =
          ⟨StatusBadRequest, .error "Invalid task ID", s, []⟩) ∧
    (∀ (f : Option String) (s : Store) (body : Body),
        updateTaskHandler f s "abc" body =
          ⟨StatusBadRequest, .error "Invalid task ID", s, []⟩) :=
  ⟨rfl, invalid_id_rejected "abc" rfl⟩

/-- C5. On a store without tasks, when the query succeeds, GET /tasks answers
200 with the tasks value an empty non-nil sequence; and for every store state
and every behaviour of the query the tasks value is never the nil slice (which
would be written as null), a 200 answer always carrying a tasks sequence. -/
theorem list_never_null :
    (∀ n : Int,
        getTasksHandler .none ⟨[], n⟩ =
          ⟨StatusOK, .tasks (.elems []), ⟨[], n⟩, [.stmt .selectTasks]⟩) ∧
    (∀ (f : QueryFault) (s : Store), (getTasksHandler f s).body ≠ .tasks .nil) ∧
    (∀ (f : QueryFault) (s : Store), (getTasksHandler f s).status = StatusOK →
        ∃ ts : List Task, (getTasksHandler f s).body = .tasks (.elems ts)) := by
  refine ⟨fun n => getTasksHandler_none ⟨[], n⟩, ?_, ?_⟩
  · intro f s
    unfold getTasksHandler
    split
    · simp
    · split
      · simp
      · rename_i tasks _
        intro h
        simp only [RespBody.tasks.injEq] at h
        exact nilCheck_ne_nil tasks h
  · intro f s
    unfold getTasksHandler
    split
    · simp
    · split
      · simp
      · rename_i tasks _
        intro _
        cases tasks with
        | nil => exact ⟨[], by simp⟩
        | elems ts => exact ⟨ts, by simp⟩

/-! ## Absent fields of the request body -/

theorem bindField_title (t t' : Task) (k : String) (v : JSON)
    (hk : keyMatches k "title" = false) (h : bindField t k v = .ok t') :
    t'.Title = t.Title := by
  unfold bindField at h
  simp only [hk, Bool.false_eq_true, if_false] at h
  split_ifs at h <;> cases v <;>
    first
    | (cases h <;> rfl)
    | (dsimp only at h; split_ifs at h; cases h; rfl)

theorem bindField_completed (t t' : Task) (k : String) (v : JSON)
    (hk : keyMatches k "completed" = false) (h : bindField t k v = .ok t') :
    t'.Completed = t.Completed := by
  unfold bindField at h
  simp only [hk, Bool.false_eq_true, if_false] at h
  split_ifs at h <;> cases v <;>
    first
    | (cases h <;> rfl)
    | (dsimp only at h; split_ifs at h; cases h; rfl)

theorem bindFields_title (fields : List (String × JSON)) (t t' : Task)
    (hno : ∀ kv ∈ fields, keyMatches kv.1 "title" = false)
    (h : bindFields fields t = .ok t') : t'.Title = t.Title := by
  induction fields generalizing t with
  | nil =>
    simp only [bindFields, Except.ok.injEq] at h
    rw [h]
  | cons kv rest ih =>
    obtain ⟨k, v⟩ := kv
    simp only [bindFields] at h
    split at h
    · simp at h
    · rename_i t1 h1
      have hk := hno (k, v) (List.mem_cons_self _ _)
      rw [ih t1 (fun kv hkv => hno kv (List.mem_cons_of_mem _ hkv)) h]
      exact bindField_title t t1 k v hk h1

theorem bindFields_completed (fields : List (String × JSON)) (t t' : Task)
    (hno : ∀ kv ∈ fields, keyMatches kv.1 "completed" = false)
    (h : bindFields fields t = .ok t') : t'.Completed = t.Completed := by
  induction fields generalizing t with
  | nil =>
    simp only [bindFields, Except.ok.injEq] at h
    rw [h]
  | cons kv rest ih =>
    obtain ⟨k, v⟩ := kv
    simp only [bindFields] at h
    split at h
    · simp at h
    · rename_i t1 h1
      have hk := hno (k, v) (List.mem_cons_self _ _)
      rw [ih t1 (fun kv hkv => hno kv (List.mem_cons_of_mem _ hkv)) h]
      exact bindField_completed t t1 k v hk h1

/-- Counterexample to C6 as stated: a create request whose body is
`{"completed": false}` binds (the title is the empty string), the row is
inserted and the answer is 201, not a 400 with the store unchanged. -/
theorem create_without_title_counterexample :
    createTaskHandler none ⟨[], 1⟩ (.object [("completed", .bool false)]) =
        ⟨StatusCreated, .task ⟨1, "", false⟩, ⟨[⟨1, "", false⟩], 2⟩,
          [.stmt (.insertTask "" false)]⟩ ∧
      ¬ ((createTaskHandler none ⟨[], 1⟩ (.object [("completed", .bool false)])).status =
            StatusBadRequest ∧
          (createTaskHandler none ⟨[], 1⟩ (.object [("completed", .bool false)])).store =
            ⟨[], 1⟩) := by
  decide

/-- C6, amended. The title is not required at creation: for every create
request whose body is a JSON object that binds and has no title key, the bound
title is the empty string and, when the insert succeeds, POST /tasks answers
201 with a Task of title "" whose row is appended to the table. POST /tasks
answers 400 exactly when the body fails to bind, whatever the store and its
readiness to fail; it then carries the binder's message, sends no statement and
leaves the store unchanged. -/
theorem create_without_title_inserts_empty_title :
    (∀ (f : Option String) (s s' : Store) (fields : List (String × JSON)) (payload : Task)
        (id : Int),
        (∀ kv ∈ fields, keyMatches kv.1 "title" = false) →
        ShouldBindJSON (.object fields) = .ok payload →
        s.insert f payload.Title payload.Completed = (.ok id, s') →
        payload.Title = "" ∧
          createTaskHandler f s (.object fields) =
            ⟨StatusCreated, .task ⟨id, "", payload.Completed⟩,
              ⟨s.rows ++ [⟨id, "", payload.Completed⟩], s.nextId + 1⟩,
              [.stmt (.insertTask "" payload.Completed)]⟩) ∧
    (∀ (f : Option String) (s : Store) (body : Body),
        (createTaskHandler f s body).status = StatusBadRequest ↔
          ∃ e : String, ShouldBindJSON body = .error e) ∧
    (∀ (f : Option String) (s : Store) (body : Body) (e : String),
        ShouldBindJSON body = .error e →
        createTaskHandler f s body = ⟨StatusBadRequest, .error e, s, []⟩) := by
  refine ⟨?_, ?_, ?_⟩
  · intro f s s' fields payload id hno hbind hins
    have htitle : payload.Title = "" :=
      bindFields_title fields ⟨0, "", false⟩ payload hno hbind
    refine ⟨htitle, ?_⟩
    have hs : s' = ⟨s.rows ++ [⟨id, "", payload.Completed⟩], s.nextId + 1⟩ := by
      cases f with
      | some m => simp [Store.insert] at hins
      | none =>
        simp only [Store.insert] at hins
        split at hins
        · simp at hins
        · simp only [Prod.mk.injEq, Except.ok.injEq] at hins
          obtain ⟨hid, hs⟩ := hins
          rw [← hs, ← hid, htitle]
    subst hs
    rw [htitle] at hins
    simp [createTaskHandler, hbind, htitle, hins]
  · intro f s body
    unfold createTaskHandler
    cases hb : ShouldBindJSON body with
    | error e => simp
    | ok newTask =>
      rcases hi : s.insert f newTask.Title newTask.Completed with ⟨r, s1⟩
      cases r <;> simp [hi]
  · intro f s body e hb
    simp [createTaskHandler, hb]

/-- Witness of the amended C6 on the empty store, where the body also carries a
key other than title; the same body is not answered with 400, an empty body is. -/
theorem create_without_title_inserts_empty_title_witness :
    ((Task.mk 0 "" true).Title = "" ∧
      createTaskHandler none ⟨[], 1⟩ (.object [("completed", .bool true), ("note", .num 3)]) =
        ⟨StatusCreated, .task ⟨1, "", true⟩,
          ⟨[] ++ [⟨1, "", true⟩], 1 + 1⟩,
          [.stmt (.insertTask "" true)]⟩) ∧
    createTaskHandler none ⟨[], 1⟩ (.malformed "EOF") =
      ⟨StatusBadRequest, .error "EOF", ⟨[], 1⟩, []⟩ :=
  ⟨create_without_title_inserts_empty_title.1 none ⟨[], 1⟩ ⟨[⟨1, "", true⟩], 2⟩
      [("completed", .bool true), ("note", .num 3)] ⟨0, "", true⟩ 1 (by decide) rfl rfl,
    create_without_title_inserts_empty_title.2.2 none ⟨[], 1⟩ (.malformed "EOF") "EOF" rfl⟩

/-- C10. For every path identifier that parses as the id of an existing task
and every body that is a JSON object which binds and has no completed key (such
as `{}` or `{"title":"x"}`), with the store working, PATCH /tasks/{id} answers
200 and sets completed of the tasks of that id to false, whatever it was; the
rest of the table is as before. -/
theorem update_without_completed_sets_false (s : Store) (idStr : String) (id : Int)
    (fields : List (String × JSON)) (payload : Task)
    (hid : Atoi idStr = some id)
    (hno : ∀ kv ∈ fields, keyMatches kv.1 "completed" = false)
    (hbind : ShouldBindJSON (.object fields) = .ok payload)
    (hex : ∃ t ∈ s.rows, t.ID = id) :
    updateTaskHandler none s idStr (.object fields) =
        ⟨StatusOK, .message "Task updated",
          ⟨s.rows.map (fun t => if t.ID = id then ⟨t.ID, t.Title, false⟩ else t), s.nextId⟩,
          [.stmt (.updateCompleted false id)]⟩ ∧
      ∀ t ∈ (updateTaskHandler none s idStr (.object fields)).store.rows,
        t.ID = id → t.Completed = false := by
  have hc : payload.Completed = false :=
    bindFields_completed fields ⟨0, "", false⟩ payload hno hbind
  have h0 : (s.rows.filter (fun t => t.ID == id)).length ≠ 0 := by
    intro h
    obtain ⟨t, ht, hteq⟩ := hex
    exact (filter_id_length_eq_zero s.rows id).mp h t ht hteq
  have hr : updateTaskHandler none s idStr (.object fields) =
      ⟨StatusOK, .message "Task updated",
        ⟨s.rows.map (fun t => if t.ID = id then ⟨t.ID, t.Title, false⟩ else t), s.nextId⟩,
        [.stmt (.updateCompleted false id)]⟩ := by
    simp [updateTaskHandler, hid, hbind, Store.update, h0, hc]
  refine ⟨hr, ?_⟩
  rw [hr]
  intro t ht hteq
  simp only [List.mem_map] at ht
  obtain ⟨u, _, hu⟩ := ht
  by_cases hcase : u.ID = id
  · rw [if_pos hcase] at hu
    rw [← hu]
  · rw [if_neg hcase] at hu
    rw [hu] at hcase
    exact absurd hteq hcase

/-- Witness of C10: task 2 of the two-task store is completed; a PATCH whose
body is `{"title":"x"}` answers 200 and leaves it not completed. -/
theorem update_without_completed_sets_false_witness :
    updateTaskHandler none twoTasks "2" (.object [("title", .str "x")]) =
        ⟨StatusOK, .message "Task updated",
          ⟨twoTasks.rows.map (fun t => if t.ID = 2 then ⟨t.ID, t.Title, false⟩ else t),
            twoTasks.nextId⟩,
          [.stmt (.updateCompleted false 2)]⟩ ∧
      ∀ t ∈ (updateTaskHandler none twoTasks "2" (.object [("title", .str "x")])).store.rows,
        t.ID = 2 → t.Completed = false :=
  update_without_completed_sets_false twoTasks "2" 2 [("title", .str "x")] ⟨0, "x", false⟩
    rfl (by decide) rfl ⟨⟨2, "b", true⟩, by decide, rfl⟩

/-! ## Store failures -/

theorem scanLoop_scan_error (l : List Task) (m : String) (tasks : TaskSlice) :
    scanLoop (l.map Except.ok ++ [Except.error m]) tasks = .error m := by
  induction l generalizing tasks with
  | nil => simp [scanLoop]
  | cons t rest ih => simp [scanLoop, ih]

/-- A failure of `pool.Query` or of a `rows.Scan` is answered by the list
handler with 500 and the message of the error. -/
theorem list_call_failure_is_500 (m : String) (s : Store) :
    getTasksHandler (.queryErr m) s =
        ⟨StatusInternalServerError, .error m, s, [.stmt .selectTasks]⟩ ∧
    ∀ k : Nat, k < s.rows.length → getTasksHandler (.scanErr k m) s =
        ⟨StatusInternalServerError, .error m, s, [.stmt .selectTasks]⟩ := by
  constructor
  · simp [getTasksHandler, Store.query]
  · intro k hk
    simp only [getTasksHandler, Store.query, if_pos hk, scanLoop_scan_error]

/-- A failure of the statement of create, delete or update is answered with 500
and the message of the error; it leaves the store as it was. -/
theorem write_failure_is_500 (m : String) (s : Store) :
    (∀ (body : Body) (payload : Task), ShouldBindJSON body = .ok payload →
        createTaskHandler (some m) s body =
          ⟨StatusInternalServerError, .error m, s,
            [.stmt (.insertTask payload.Title payload.Completed)]⟩) ∧
    (∀ (idStr : String) (id : Int), Atoi idStr = some id →
        deleteTaskHandler (some m) s idStr =
          ⟨StatusInternalServerError, .error m, s, [.stmt (.deleteTask id)]⟩) ∧
    (∀ (idStr : String) (id : Int) (body : Body) (payload : Task),
        Atoi idStr = some id → ShouldBindJSON body = .ok payload →
        updateTaskHandler (some m) s idStr body =
          ⟨StatusInternalServerError, .error m, s,
            [.stmt (.updateCompleted payload.Completed id)]⟩) := by
  refine ⟨?_, ?_, ?_⟩
  · intro body payload hbind
    simp [createTaskHandler, hbind, Store.insert]
  · intro idStr id hid
    simp [deleteTaskHandler, hid, Store.delete]
  · intro idStr id body payload hid hbind
    simp [updateTaskHandler, hid, hbind, Store.update]

/-- An update that succeeds on no row is answered with 404, not 500. -/
theorem update_missing_is_404 (s : Store) (idStr : String) (id : Int) (body : Body)
    (payload : Task) (hid : Atoi idStr = some id) (hbind : ShouldBindJSON body = .ok payload)
    (hnone : ∀ t ∈ s.rows, t.ID ≠ id) :
    (updateTaskHandler none s idStr body).status = StatusNotFound ∧
      (updateTaskHandler none s idStr body).body = .error "Task not found" := by
  have h0 := (filter_id_length_eq_zero s.rows id).mpr hnone
  simp [updateTaskHandler, hid, hbind, Store.update, h0]

/-- When reading the result set breaks off after `k` rows, the list handler
answers 200 with the rows read so far: the loop ends as if the rows were
exhausted and the error, held by `rows.Err()`, is never looked at. -/
theorem list_read_failure_is_200 (k : Nat) (m : String) (s : Store) :
    getTasksHandler (.readErr k m) s =
      ⟨StatusOK, .tasks (.elems (s.rows.take k)), s, [.stmt .selectTasks]⟩ := by
  simp only [getTasksHandler, Store.query, scanLoop_nil]
  by_cases h : s.rows.take k = [] <;> simp [h]

/-- C7, at the failing input. The table holds tasks 1 and 2 and the select
breaks off after the first row with the error "unexpected EOF": the list
handler answers 200 with task 1 alone, not 500 with the message. -/
theorem list_read_error_answers_200 :
    getTasksHandler (.readErr 1 "unexpected EOF") twoTasks =
        ⟨StatusOK, .tasks (.elems [⟨1, "a", false⟩]), twoTasks, [.stmt .selectTasks]⟩ ∧
      (getTasksHandler (.readErr 1 "unexpected EOF") twoTasks).status ≠
        StatusInternalServerError := by
  decide

/-! ## The scenario -/

/-- C8. From the empty store whose first id is 1: the POST of buy milk answers
201 with task 1; the list then holds exactly that task; PATCH /tasks/1 with
completed true answers 200 and the list then shows task 1 completed with its
title; DELETE /tasks/1 answers 200 and the list is then the empty sequence; a
second DELETE /tasks/1 answers 404. -/
theorem scenario_buy_milk :
    scenarioPost.status = StatusCreated ∧
    scenarioPost.body = .task ⟨1, "buy milk", false⟩ ∧
    (getTasksHandler .none scenarioPost.store).status = StatusOK ∧
    (getTasksHandler .none scenarioPost.store).body =
      .tasks (.elems [⟨1, "buy milk", false⟩]) ∧
    scenarioPatch.status = StatusOK ∧
    scenarioPatch.body = .message "Task updated" ∧
    (getTasksHandler .none scenarioPatch.store).status = StatusOK ∧
    (getTasksHandler .none scenarioPatch.store).body =
      .tasks (.elems [⟨1, "buy milk", true⟩]) ∧
    scenarioDelete.status = StatusOK ∧
    scenarioDelete.body = .message "Task deleted" ∧
    (getTasksHandler .none scenarioDelete.store).status = StatusOK ∧
    (getTasksHandler .none scenarioDelete.store).body = .tasks (.elems []) ∧
    scenarioDeleteAgain.status = StatusNotFound ∧
    scenarioDeleteAgain.body = .error "Task not found" := by
  decide

/-! ## Logging -/

/-- Counterexample to C9 as stated: DELETE /tasks/abc ends in a 400 response and
DELETE /tasks/7 on a store without task 7 in a 404 response, neither preceded
by any log write. -/
theorem error_without_log_counterexample :
    (deleteTaskHandler none twoTasks "abc").status = StatusBadRequest ∧
    logLines (deleteTaskHandler none twoTasks "abc").effects = [] ∧
    (∀ line : String, Effect.log line ∉ (deleteTaskHandler none twoTasks "abc").effects) ∧
    (deleteTaskHandler none twoTasks "7").status = StatusNotFound ∧
    logLines (deleteTaskHandler none twoTasks "7").effects = [] := by
  refine ⟨by decide, by decide, ?_, by decide, by decide⟩
  intro line
  have h : (deleteTaskHandler none twoTasks "abc").effects = [] := by decide
  rw [h]
  simp

/-- C9, amended. The bodies of the four task handlers make no log write: on
every path of the list, create, delete and update handlers, those ending in
400, 404 or 500 included, the effects before the response hold no log line and
the error goes to the response alone. Of the six route handlers of main.go the
two diagnostic ones do log before their 500 response: GET /error-test writes
"Simulating server error..." and GET /db-error writes "DB query failed: m",
with m the message it then returns. -/
theorem task_handlers_write_no_log :
    (∀ (f : QueryFault) (s : Store), logLines (getTasksHandler f s).effects = []) ∧
    (∀ (f : Option String) (s : Store) (body : Body),
        logLines (createTaskHandler f s body).effects = []) ∧
    (∀ (f : Option String) (s : Store) (idStr : String),
        logLines (deleteTaskHandler f s idStr).effects = []) ∧
    (∀ (f : Option String) (s : Store) (idStr : String) (body : Body),
        logLines (updateTaskHandler f s idStr body).effects = []) ∧
    (∀ s : Store,
        (errorTestHandler s).status = StatusInternalServerError ∧
        logLines (errorTestHandler s).effects = ["Simulating server error..."]) ∧
    (∀ (f : Option String) (s : Store), ∃ m : String,
        dbErrorHandler f s =
          ⟨StatusInternalServerError, .error m, s,
            [.stmt .selectNonExisting, .log ("DB query failed: " ++ m)]⟩ ∧
        logLines (dbErrorHandler f s).effects = ["DB query failed: " ++ m]) := by
  refine ⟨?_, ?_, ?_, ?_, ?_, ?_⟩
  · intro f s
    unfold getTasksHandler
    split
    · rfl
    · split <;> rfl
  · intro f s body
    unfold createTaskHandler
    split
    · rfl
    · split <;> rfl
  · intro f s idStr
    unfold deleteTaskHandler
    split
    · rfl
    · split
      · rfl
      · split <;> rfl
  · intro f s idStr body
    unfold updateTaskHandler
    split
    · rfl
    · split
      · rfl
      · split
        · rfl
        · split <;> rfl
  · intro s
    exact ⟨rfl, rfl⟩
  · intro f s
    cases f with
    | none => exact ⟨undefinedTable, rfl, rfl⟩
    | some m => exact ⟨m, rfl, rfl⟩

end TodoApp
